import Mathlib

/-!
Verification of the uni-price-polling program (src/src/main.rs).

The program fetches the reserves of two Uniswap V2 pools (TOKEN/ETH and
ETH/USDT), converts the raw integer reserves to decimal magnitudes with
`reformat_wei` and `reformat_usd`, and composes the two hop ratios into a
single cross rate (src/src/main.rs lines 57-63).

Modelling choices.  The Rust code computes with IEEE `f64`; this development
models that arithmetic by exact rational arithmetic over `ℚ` (division by
zero yields 0, the Lean convention).  Raw `u128` reserves are modelled as `ℕ`;
every statement quantified over all of `ℕ` in particular covers the `u128`
range.  The compose stage of `main` (after both fetches have succeeded) has
no failure path in the source; it is embedded both as a plain function and,
where a claim speaks about errors, as an `Except`-valued run that is `ok` by
construction, mirroring the absence of any early return between the fetches
and the final print.
-/

namespace UniPrice

/-- Error taxonomy named by the spec (section 7).  The compose stage of the
source never constructs any of these; the type is needed to state the
error-handling claims against the code. -/
inductive PriceError where
  | RpcError
  | Timeout
  | DecodeError
  | ZeroReserve
  | ChainMismatch
deriving DecidableEq, Repr

/-- The 3-field reserve snapshot returned by `getReserves`
(src/src/main.rs line 29): reserve0, reserve1, blockTimestampLast. -/
structure PoolReserves where
  reserve0 : ℕ
  reserve1 : ℕ
  blockTimestampLast : ℕ
deriving DecidableEq, Repr

/-- Embedding of `reformat_wei` (src/src/main.rs lines 77-79):
`wei_int as f64 / 10_f64.powf(16.0)`. -/
def reformat_wei (wei_int : ℕ) : ℚ :=
  (wei_int : ℚ) / 10 ^ 16

/-- Embedding of `reformat_usd` (src/src/main.rs lines 86-88):
`usd_int as f64 / 10_f64.powf(4.0)`. -/
def reformat_usd (usd_int : ℕ) : ℚ :=
  (usd_int : ℚ) / 10 ^ 4

/-- Embedding of the compose stage of `main` (src/src/main.rs lines 57-63).
Hop 1 supplies `(token_1, eth_1)`, hop 2 supplies `(eth_2, usdt_1)`;
the result is `1.0 / ((token_f64 / eth_f64) * (eth2_f64 / usdt_f64))`. -/
def token_per_usdt (p1 p2 : PoolReserves) : ℚ :=
  let token_f64 := reformat_wei p1.reserve0
  let eth_f64 := reformat_wei p1.reserve1
  let eth2_f64 := reformat_wei p2.reserve0
  let usdt_f64 := reformat_usd p2.reserve1
  1 / ((token_f64 / eth_f64) * (eth2_f64 / usdt_f64))

/-- The inner product of the two hop ratios in `main`
(src/src/main.rs lines 62-63), before the reciprocal is taken. -/
def hopProduct (p1 p2 : PoolReserves) : ℚ :=
  (reformat_wei p1.reserve0 / reformat_wei p1.reserve1) *
    (reformat_wei p2.reserve0 / reformat_usd p2.reserve1)

/-- The compose stage of `main` viewed as a fallible run.  Between the two
fetches (lines 52-53) and the print (line 66) the source has no `?`, no
check and no early return, so the embedding is `ok` on every input. -/
def composeRun (p1 p2 : PoolReserves) : Except PriceError ℚ :=
  Except.ok (token_per_usdt p1 p2)

/-- Spec formula (spec section 1), written from the words of the spec:
`price(ASSET in REFERENCE) = 1 / ((reserveASSET/reserveINTERMEDIATE) *
(reserveINTERMEDIATE/reserveREFERENCE))`, applied to already-normalized
reserves. -/
def specCrossRate (nA nI nI2 nR : ℚ) : ℚ :=
  1 / ((nA / nI) * (nI2 / nR))

/-- Modelled from the spec: the ABI decoder for the `getReserves` response is
generated by the `abigen!` macro from the interface declared at
src/src/main.rs lines 27-30 and implemented in the external ethers library,
so only its declaration is in the source.  Per the spec it decodes a fixed
3-field response `(reserve0, reserve1, lastUpdateTimestamp)` with reserve
bit width at most 112 and a 32-bit timestamp, and any other shape is a
decode failure.  A response is modelled as the list of decoded field
values. -/
def decodeReserves (resp : List ℕ) : Except PriceError (ℕ × ℕ × ℕ) :=
  match resp with
  | [r0, r1, ts] =>
      if r0 < 2 ^ 112 ∧ r1 < 2 ^ 112 ∧ ts < 2 ^ 32 then Except.ok (r0, r1, ts)
      else Except.error PriceError.DecodeError
  | _ => Except.error PriceError.DecodeError

/-- The compose stage of `main` (src/src/main.rs lines 57-63) with an
explicit ambient program state threaded through.  Those source lines are
`let` bindings of arithmetic only, so the state passes through unchanged. -/
def composeStep {σ : Type} (p1 p2 : PoolReserves) (s : σ) : ℚ × σ :=
  (token_per_usdt p1 p2, s)

/-- C1: the compose stage of `main` returns exactly the cross-rate formula of
the spec applied to the normalized reserves, the reciprocal of the product of
the two hop ratios; equivalently the product of the normalized denominators
over the product of the normalized numerators. -/
theorem main_price_is_reciprocal_of_hop_ratio_product (p1 p2 : PoolReserves) :
    token_per_usdt p1 p2 =
      specCrossRate (reformat_wei p1.reserve0) (reformat_wei p1.reserve1)
        (reformat_wei p2.reserve0) (reformat_usd p2.reserve1) ∧
    token_per_usdt p1 p2 =
      (reformat_wei p1.reserve1 * reformat_usd p2.reserve1) /
        (reformat_wei p1.reserve0 * reformat_wei p2.reserve0) := by
  constructor
  · rfl
  · simp only [token_per_usdt, specCrossRate]
    rw [div_mul_div_comm, one_div_div]

/-- C2 counterexample: on an input whose first reserve is zero the compose
stage of `main` still returns a value, not a `ZeroReserve` error, because the
source contains no zero-reserve check at all. -/
theorem zero_reserve_not_rejected :
    composeRun ⟨0, 1000, 0⟩ ⟨1000, 2000, 0⟩ ≠
      Except.error PriceError.ZeroReserve := by
  simp [composeRun]

/-- C2 amended: the code performs no zero-reserve validation; with any zero
reserve the compose stage returns `ok` (in the exact-rational model the
returned price is 0; in IEEE arithmetic it is infinity, NaN or 0), never a
`ZeroReserve` error. -/
theorem zero_reserve_returns_ok (p1 p2 : PoolReserves)
    (h : p1.reserve0 = 0 ∨ p1.reserve1 = 0 ∨ p2.reserve0 = 0 ∨
      p2.reserve1 = 0) :
    composeRun p1 p2 = Except.ok 0 := by
  have hz : token_per_usdt p1 p2 = 0 := by
    simp only [token_per_usdt]
    rcases h with h | h | h | h <;> simp [reformat_wei, reformat_usd, h]
  simp [composeRun, hz]

/-- C2 witness for the amended claim at a concrete zero-reserve input. -/
theorem zero_reserve_returns_ok_witness :
    composeRun ⟨0, 1000, 7⟩ ⟨1000, 2000, 9⟩ = Except.ok 0 :=
  zero_reserve_returns_ok _ _ (Or.inl rfl)

/-- C3 counterexample: `reformat_wei` does not divide by `10 ^ 18`; at the
input `10 ^ 18` it returns 100, not `10 ^ 18 / 10 ^ 18 = 1`, because the
source divides by `10 ^ 16` (src/src/main.rs line 78). -/
theorem reformat_wei_not_18_decimals :
    reformat_wei (10 ^ 18) ≠ (10 : ℚ) ^ 18 / 10 ^ 18 := by
  norm_num [reformat_wei]

/-- C3 amended: the conversion functions divide by a fixed power of ten, but
the exponents are 16 (for `reformat_wei`) and 4 (for `reformat_usd`), not 18
and 6: multiplying the result back by the respective power recovers the raw
reserve exactly. -/
theorem reformat_divides_by_pow16_and_pow4 (r : ℕ) :
    10 ^ 16 * reformat_wei r = r ∧ 10 ^ 4 * reformat_usd r = r := by
  constructor
  · rw [reformat_wei, mul_comm, div_mul_cancel₀ _ (by norm_num : (10 : ℚ) ^ 16 ≠ 0)]
  · rw [reformat_usd, mul_comm, div_mul_cancel₀ _ (by norm_num : (10 : ℚ) ^ 4 ≠ 0)]

/-- C4: decimal conversion round-trip: for every raw reserve `r`, scaling the
converted value back by the respective power of ten and truncating to a
natural number reproduces `r` exactly (the exact-rational model of the f64
arithmetic makes the round trip exact, hence within any rounding
tolerance). -/
theorem reformat_roundtrip (r : ℕ) :
    Nat.floor (reformat_wei r * 10 ^ 16) = r ∧
    Nat.floor (reformat_usd r * 10 ^ 4) = r := by
  constructor
  · rw [reformat_wei, div_mul_cancel₀ _ (by norm_num : (10 : ℚ) ^ 16 ≠ 0)]
    exact Nat.floor_natCast r
  · rw [reformat_usd, div_mul_cancel₀ _ (by norm_num : (10 : ℚ) ^ 4 ≠ 0)]
    exact Nat.floor_natCast r

/-- C5: for the hop with reserves `(1000, 2000)`, both sides normalized with
the same conversion (hence the same decimal exponent, which cancels), the
hop ratio side0-per-side1 is exactly one half. -/
theorem single_hop_1000_2000_is_half :
    reformat_wei 1000 / reformat_wei 2000 = 1 / 2 := by
  norm_num [reformat_wei]

/-- C6: reciprocal symmetry: the price `main` returns is the reciprocal of
the hop-ratio product, and conversely the hop-ratio product (the same chain
composed in the opposite orientation) is the reciprocal of the returned
price, whenever the product is nonzero. -/
theorem price_reciprocal_symmetry (p1 p2 : PoolReserves)
    (h : hopProduct p1 p2 ≠ 0) :
    token_per_usdt p1 p2 = 1 / hopProduct p1 p2 ∧
    hopProduct p1 p2 = 1 / token_per_usdt p1 p2 := by
  refine ⟨rfl, ?_⟩
  show hopProduct p1 p2 = 1 / (1 / hopProduct p1 p2)
  rw [one_div_one_div]

/-- C6 witness at a concrete chain with nonzero hop-ratio product. -/
theorem price_reciprocal_symmetry_witness :
    token_per_usdt ⟨1000, 2000, 0⟩ ⟨3000, 500, 0⟩ =
      1 / hopProduct ⟨1000, 2000, 0⟩ ⟨3000, 500, 0⟩ ∧
    hopProduct ⟨1000, 2000, 0⟩ ⟨3000, 500, 0⟩ =
      1 / token_per_usdt ⟨1000, 2000, 0⟩ ⟨3000, 500, 0⟩ :=
  price_reciprocal_symmetry _ _
    (by norm_num [hopProduct, reformat_wei, reformat_usd])

/-- C8: the reserve decoder accepts exactly the well-formed 3-field shape,
returning the decoded triple unchanged, and rejects every response of any
other length with a `DecodeError` (in particular one missing the timestamp
field); no field is silently defaulted. -/
theorem decode_exactly_three_fields :
    (∀ r0 r1 ts : ℕ, r0 < 2 ^ 112 → r1 < 2 ^ 112 → ts < 2 ^ 32 →
      decodeReserves [r0, r1, ts] = Except.ok (r0, r1, ts)) ∧
    (∀ resp : List ℕ, resp.length ≠ 3 →
      decodeReserves resp = Except.error PriceError.DecodeError) := by
  constructor
  · intro r0 r1 ts h0 h1 h2
    simp [decodeReserves]
    norm_num at h0 h1 h2
    exact ⟨h0, h1, h2⟩
  · intro resp h
    match resp with
    | [] => rfl
    | [a] => rfl
    | [a, b] => rfl
    | [a, b, c] => exact absurd rfl h
    | a :: b :: c :: d :: t => rfl

/-- C8 witness: a concrete well-formed response decodes to its triple, and a
concrete response missing the timestamp field is rejected. -/
theorem decode_exactly_three_fields_witness :
    decodeReserves [5, 7, 11] = Except.ok (5, 7, 11) ∧
    decodeReserves [5, 7] = Except.error PriceError.DecodeError :=
  ⟨decode_exactly_three_fields.1 5 7 11 (by norm_num) (by norm_num)
      (by norm_num),
    decode_exactly_three_fields.2 [5, 7] (by norm_num)⟩

/-- C9: the compose stage is a pure, deterministic function of the fetched
reserves: it leaves any ambient program state unchanged, its numeric result
does not depend on that state (two runs on identical inputs agree), and the
result is exactly the price function of the inputs. -/
theorem compose_pure_deterministic {σ : Type} (p1 p2 : PoolReserves)
    (s t : σ) :
    (composeStep p1 p2 s).2 = s ∧
    (composeStep p1 p2 s).1 = (composeStep p1 p2 t).1 ∧
    (composeStep p1 p2 s).1 = token_per_usdt p1 p2 :=
  ⟨rfl, rfl, rfl⟩

/-- C10: the conversion functions are total, non-negative and monotone: on
every pair of raw reserves `a ≤ b` both conversions return a well-defined
non-negative value and preserve the order. -/
theorem reformat_total_nonneg_monotone (a b : ℕ) (h : a ≤ b) :
    0 ≤ reformat_wei a ∧ reformat_wei a ≤ reformat_wei b ∧
    0 ≤ reformat_usd a ∧ reformat_usd a ≤ reformat_usd b := by
  have hab : (a : ℚ) ≤ b := by exact_mod_cast h
  unfold reformat_wei reformat_usd
  refine ⟨by positivity, ?_, by positivity, ?_⟩ <;> gcongr

/-- C10 witness at the concrete pair 3 ≤ 8. -/
theorem reformat_total_nonneg_monotone_witness :
    0 ≤ reformat_wei 3 ∧ reformat_wei 3 ≤ reformat_wei 8 ∧
    0 ≤ reformat_usd 3 ∧ reformat_usd 3 ≤ reformat_usd 8 :=
  reformat_total_nonneg_monotone 3 8 (by norm_num)

end UniPrice
